import Mathlib

/-!
Shallow embedding of the void-pointer teaching page
(`src/src/app/page.tsx`): its static content tables and the two
state slices owned by the page component (interpretation selector,
quiz engine), together with the derived values (`selectedInterpretation`,
`score`) and the four event handlers wired to the UI controls.
-/

/-- One named way of viewing the illustrative 8-byte buffer
(`type Interpretation` in the source). -/
structure Interpretation where
  id : String
  label : String
  snippet : String
  explanation : String
  view : List String
deriving DecidableEq

/-- One quiz question (`type QuizQuestion` in the source); `answer` is the
index of the correct option. -/
structure QuizQuestion where
  question : String
  options : List String
  answer : Int
  explanation : String
deriving DecidableEq

/-- The static `reinterpretations` table from the source, verbatim. -/
def reinterpretations : List Interpretation :=
  [ { id := "char"
    , label := "char*"
    , snippet := "void *buffer = malloc(8);\nchar *text = (char*)buffer;\ntext[0] = \x27A\x27;"
    , explanation := "Treat the raw memory as characters. Great for byte-by-byte access, but you must ensure there is enough allocated space."
    , view := ["\x27A\x27 (0x41)", "\x27\\0\x27", "?", "?", "?", "?", "?", "?"] }
  , { id := "int"
    , label := "int*"
    , snippet := "void *buffer = malloc(sizeof(int));\nint *value = static_cast<int*>(buffer);\n*value = 1024;"
    , explanation := "Reinterpret the bytes as a 32-bit integer. Alignment matters: the buffer must be suitably aligned for the target type."
    , view := ["0x00", "0x04", "0x00", "0x00", "?", "?", "?", "?"] }
  , { id := "double"
    , label := "double*"
    , snippet := "alignas(double) std::byte buffer[8];\nvoid *raw = buffer;\ndouble *pi = static_cast<double*>(raw);\n*pi = 3.1415926535;"
    , explanation := "Large types demand careful alignment. Here the same bytes encode an IEEE-754 double. Misaligned access on some CPUs causes crashes."
    , view := ["0x18", "0x2D", "0x44", "0x54", "0xFB", "0x21", "0x09", "0x40"] }
  , { id := "struct"
    , label := "struct Example*"
    , snippet := "struct Example \x7b int id; float ratio; \x7d;\nvoid *opaque = create();\nExample *ex = reinterpret_cast<Example*>(opaque);\nprintf(\"%d %.2f\\n\", ex->id, ex->ratio);"
    , explanation := "Opaque APIs often return void pointers to hide implementation details. The caller must cast back to the concrete type safely."
    , view := ["id: 7", "id bytes...", "ratio: 0.75f", "..."] } ]

/-- The static `quizQuestions` table from the source, verbatim. -/
def quizQuestions : List QuizQuestion :=
  [ { question := "Why does C provide void pointers?"
    , options :=
        [ "To automatically convert data to any type without casting."
        , "To store addresses generically when the pointed-to type is unknown."
        , "To let the compiler infer the correct type later."
        , "To prevent manual memory management." ]
    , answer := 1
    , explanation := "A void pointer represents an address without a declared pointed-to type, which is useful for generic containers and APIs." }
  , { question := "Which operation is illegal directly on a void pointer?"
    , options :=
        [ "Comparing the address with another pointer."
        , "Assigning NULL."
        , "Incrementing with pointer arithmetic."
        , "Casting to a typed pointer." ]
    , answer := 2
    , explanation := "Pointer arithmetic needs the size of the pointed-to type. A void pointer lacks that info, so you must cast before arithmetic." }
  , { question := "What must you guarantee before casting a void* back to a struct*?"
    , options :=
        [ "The struct has only primitive fields."
        , "The memory was aligned and originally allocated for that struct type."
        , "The struct is marked with typedef."
        , "The struct size is less than 16 bytes." ]
    , answer := 1
    , explanation := "You must cast only to the type that was originally stored there and respect alignment requirements." } ]

/-- Uppercase hexadecimal rendering of a natural number, as produced by
`toString(16).toUpperCase()` in the source. -/
def hexUpper (n : Nat) : String :=
  String.mk ((Nat.toDigits 16 n).map Char.toUpper)

/-- The `pointerBlocks` table: 8 cells, each with its index and the display
address `0x1000 + index`. -/
def pointerBlocks : List (Nat × String) :=
  (List.range 8).map fun index => (index, "0x" ++ hexUpper (0x1000 + index))

/-- The mutable state owned by the page component: the selected
interpretation id, the recorded quiz answers (sentinel `-1` meaning
unanswered) and the submission flag. -/
structure PageState where
  selectedId : String
  quizAnswers : List Int
  submitted : Bool
deriving DecidableEq

/-- `reinterpretations[0]`, the fallback entry used both for the initial
selection and when a lookup fails. -/
def firstInterpretation : Interpretation :=
  reinterpretations.get ⟨0, by decide⟩

/-- The initial component state: first interpretation selected, every
answer set to the sentinel `-1`, not submitted. -/
def initState : PageState :=
  { selectedId := firstInterpretation.id
  , quizAnswers := List.replicate quizQuestions.length (-1)
  , submitted := false }

/-- The derived `selectedInterpretation` value:
`reinterpretations.find(entry => entry.id === selectedId) ?? reinterpretations[0]`. -/
def selectedInterpretation (s : PageState) : Interpretation :=
  (reinterpretations.find? fun entry => entry.id == s.selectedId).getD firstInterpretation

/-- The interpretation-button handler: `setSelectedId(interpretation.id)`. -/
def select (id : String) (s : PageState) : PageState :=
  { s with selectedId := id }

/-- The option-button handler: `if (submitted) return;` then copy the answer
array with `next[index] = optionIndex`. -/
def chooseAnswer (questionIndex optionIndex : Nat) (s : PageState) : PageState :=
  if s.submitted then s
  else { s with quizAnswers := s.quizAnswers.set questionIndex (optionIndex : Int) }

/-- The Submit-button handler: `setSubmitted(true)`. -/
def submit (s : PageState) : PageState :=
  { s with submitted := true }

/-- The Reset-button handler: `setSubmitted(false)` and a fresh all-sentinel
answer array. -/
def reset (s : PageState) : PageState :=
  { s with submitted := false
         , quizAnswers := List.replicate quizQuestions.length (-1) }

/-- The indexed reduction inside the derived `score` value: walk the answer
array with its index, adding 1 whenever `answer === quizQuestions[index]?.answer`
(a comparison that is false when the index is out of range). Parameterised by
the question bank the reduction reads. -/
def scoreFromOver (qs : List QuizQuestion) : Nat → List Int → Nat
  | _, [] => 0
  | i, a :: rest =>
      (match qs.get? i with
       | some q => if a = q.answer then 1 else 0
       | none => 0) + scoreFromOver qs (i + 1) rest

/-- The derived `score` value of the page: the reduction over the recorded
answers against the page table `quizQuestions`. -/
def score (s : PageState) : Nat :=
  scoreFromOver quizQuestions 0 s.quizAnswers

/-- The cell text of grid cell `i`:
`selectedInterpretation.view[block.index] ?? "—"`. -/
def renderCell (interp : Interpretation) (i : Nat) : String :=
  (interp.view.get? i).getD "—"

/-- One user interaction event on the interactive surface of the page. -/
inductive Event where
  | select (id : String)
  | choose (questionIndex optionIndex : Nat)
  | submit
  | reset
deriving DecidableEq

/-- Dispatch one event to its handler. -/
def applyEvent (s : PageState) : Event → PageState
  | .select id => select id s
  | .choose q o => chooseAnswer q o s
  | .submit => submit s
  | .reset => reset s

/-- Run a sequence of events from the initial state. -/
def run (es : List Event) : PageState :=
  es.foldl applyEvent initState

/-- An event the rendered UI can actually emit: option buttons only exist
for in-range question and option indices. -/
def validEvent : Event → Bool
  | .choose q o =>
      match quizQuestions.get? q with
      | some qq => o < qq.options.length
      | none => false
  | _ => true

/-- Specification-side count, following the wording of the spec: the number
of questions whose latest recorded answer equals the correct option index
of that question. -/
def specCountCorrect (qs : List QuizQuestion) (ans : List Int) : Nat :=
  ((qs.zip ans).filter fun p => p.2 == p.1.answer).length

/-- Modelled from the spec: the hypothetical 3-question bank of the scoring
scenario in the spec, with correct indices [1, 0, 2]. It is scenario data of
the specification, not one of the source tables; only its `answer` fields
are read by the scoring reduction. -/
def scenarioQuestions : List QuizQuestion :=
  [ { question := "first", options := ["a", "b", "c"], answer := 1, explanation := "" }
  , { question := "second", options := ["a", "b", "c"], answer := 0, explanation := "" }
  , { question := "third", options := ["a", "b", "c"], answer := 2, explanation := "" } ]

/-- Run a sequence of option clicks (question index, option index) from the
initial, Answering, state. -/
def runChooses (calls : List (Nat × Nat)) : PageState :=
  calls.foldl (fun s c => chooseAnswer c.1 c.2 s) initState

/-- Validity of one recorded answer for its question: either the sentinel
`-1` or an in-range option index. -/
def entryOK (q : QuizQuestion) (a : Int) : Prop :=
  a = -1 ∨ (0 ≤ a ∧ a < (q.options.length : Int))

/-- The answer-array invariant: one entry per question, each entry valid
for its question (so in particular the lengths agree). -/
def answersOK (ans : List Int) : Prop :=
  List.Forall₂ entryOK quizQuestions ans

/-! ## Theorems -/

/-- C4: for every question index and option index, calling `chooseAnswer`
while in the Reviewed state (`submitted = true`) is a no-op: the state
before and after the call is identical. -/
theorem chooseAnswer_reviewed_noop (s : PageState) (q o : Nat)
    (h : s.submitted = true) : chooseAnswer q o s = s := by
  simp [chooseAnswer, h]

/-- Witness for C4: after submitting from the initial state, a late click on
question 0, option 1 leaves the state unchanged. -/
theorem chooseAnswer_reviewed_noop_witness :
    (submit initState).submitted = true ∧
      chooseAnswer 0 1 (submit initState) = submit initState :=
  ⟨rfl, chooseAnswer_reviewed_noop (submit initState) 0 1 rfl⟩

/-- C5: from any prior state, `reset` yields the Answering state
(`submitted = false`) with every recorded answer equal to the sentinel `-1`. -/
theorem reset_clears (s : PageState) :
    (reset s).submitted = false ∧
      (reset s).quizAnswers = List.replicate quizQuestions.length (-1) :=
  ⟨rfl, rfl⟩

/-- C6: `submit` is idempotent: submitting twice yields exactly the same
state as submitting once. -/
theorem submit_idempotent (s : PageState) : submit (submit s) = submit s := rfl

/-- C10: the two state slices are independent: `select` leaves the quiz
slice (answers and submitted flag) unchanged, and `chooseAnswer`, `submit`
and `reset` each leave the selected interpretation id unchanged. -/
theorem slices_independent (s : PageState) (id : String) (q o : Nat) :
    (select id s).quizAnswers = s.quizAnswers ∧
      (select id s).submitted = s.submitted ∧
      (chooseAnswer q o s).selectedId = s.selectedId ∧
      (submit s).selectedId = s.selectedId ∧
      (reset s).selectedId = s.selectedId := by
  refine ⟨rfl, rfl, ?_, rfl, rfl⟩
  unfold chooseAnswer
  split <;> rfl

/-- C9: after selecting the interpretation with id `"double"`, the current
byte-view is exactly the 8 little-endian IEEE-754 bytes of 3.1415926535
authored in the table: [0x18, 0x2D, 0x44, 0x54, 0xFB, 0x21, 0x09, 0x40]. -/
theorem double_view_bytes (s : PageState) :
    (selectedInterpretation (select "double" s)).view =
      ["0x18", "0x2D", "0x44", "0x54", "0xFB", "0x21", "0x09", "0x40"] ∧
      (selectedInterpretation (select "double" s)).view.length = 8 :=
  ⟨rfl, rfl⟩

/-- Counterexample for C2: after selecting `"double"`, a `select` with the
unknown id `"void"` changes the result of `selectedInterpretation` — the
code falls back to the first entry instead of keeping the prior value. -/
theorem select_unknown_changes_current :
    selectedInterpretation (select "void" (select "double" initState)) ≠
      selectedInterpretation (select "double" initState) := by
  decide

/-- C2 (amended): `select` with an id matching no interpretation makes
`selectedInterpretation` fall back to the first entry of the table,
regardless of the prior selection, and no error is raised. -/
theorem select_unknown_falls_back (s : PageState) (id : String)
    (h : (reinterpretations.all fun e => e.id != id) = true) :
    selectedInterpretation (select id s) = firstInterpretation := by
  rw [List.all_eq_true] at h
  have hnone : reinterpretations.find? (fun entry => entry.id == id) = none := by
    rw [List.find?_eq_none]
    intro e he
    simpa using h e he
  show (reinterpretations.find? fun entry => entry.id == id).getD firstInterpretation =
    firstInterpretation
  rw [hnone]
  rfl

/-- Witness for C2 (amended): `"void"` matches no entry, and selecting it
from the initial state yields the first entry. -/
theorem select_unknown_falls_back_witness :
    (reinterpretations.all fun e => e.id != "void") = true ∧
      selectedInterpretation (select "void" initState) = firstInterpretation :=
  ⟨by decide, select_unknown_falls_back initState "void" (by decide)⟩

/-- Counterexample for C3: the byte-view of the `"struct"` entry has 4 display
strings, not 8, and its out-of-range grid cells render `"—"`, not `"?"`. -/
theorem view_eight_counterexample :
    (reinterpretations.get? 3).map (fun e => (e.view.length, renderCell e 4)) =
        some (4, "—") ∧
      (reinterpretations.all fun e => e.view.length == 8) = false ∧
      (reinterpretations.all fun e =>
        (List.range 8).all fun i =>
          decide (e.view.length ≤ i) == false || renderCell e i == "?") = false := by
  refine ⟨by decide, by decide, by decide⟩

/-- C3 (amended): the byte-view of every interpretation has at most 8 display
strings, the grid has exactly 8 cells, and any byte slot at or beyond the
sequence length renders as the placeholder `"—"`. -/
theorem view_at_most_eight_dash (e : Interpretation)
    (he : e ∈ reinterpretations) :
    e.view.length ≤ 8 ∧ pointerBlocks.length = 8 ∧
      ∀ i, e.view.length ≤ i → renderCell e i = "—" := by
  refine ⟨?_, rfl, ?_⟩
  · simp only [reinterpretations, List.mem_cons, List.not_mem_nil, or_false] at he
    rcases he with rfl | rfl | rfl | rfl <;> decide
  · intro i hi
    unfold renderCell
    rw [List.get?_eq_none.mpr hi]
    rfl

/-- Witness for C3 (amended): the `"struct"` entry is in the table, its view
has at most 8 entries, and its grid cell 4 renders `"—"`. -/
theorem view_at_most_eight_dash_witness :
    reinterpretations.get ⟨3, by decide⟩ ∈ reinterpretations ∧
      (reinterpretations.get ⟨3, by decide⟩).view.length ≤ 8 ∧
      renderCell (reinterpretations.get ⟨3, by decide⟩) 4 = "—" :=
  ⟨by decide,
   (view_at_most_eight_dash (reinterpretations.get ⟨3, by decide⟩) (by decide)).1,
   (view_at_most_eight_dash (reinterpretations.get ⟨3, by decide⟩) (by decide)).2.2
     4 (by decide)⟩

/-- C8: for every id matching some entry of the table, `select id` followed
by `selectedInterpretation` returns that entry. -/
theorem select_valid_id (s : PageState) (id : String) (e : Interpretation)
    (he : e ∈ reinterpretations) (hid : e.id = id) :
    selectedInterpretation (select id s) = e := by
  subst hid
  simp only [reinterpretations, List.mem_cons, List.not_mem_nil, or_false] at he
  rcases he with rfl | rfl | rfl | rfl <;> rfl

/-- Witness for C8: selecting `"double"` from the initial state returns the
`"double"` entry of the table. -/
theorem select_valid_id_witness :
    reinterpretations.get ⟨2, by decide⟩ ∈ reinterpretations ∧
      (reinterpretations.get ⟨2, by decide⟩).id = "double" ∧
      selectedInterpretation (select "double" initState) =
        reinterpretations.get ⟨2, by decide⟩ :=
  ⟨by decide, by decide,
   select_valid_id initState "double" (reinterpretations.get ⟨2, by decide⟩)
     (by decide) (by decide)⟩

theorem chooseAnswer_length (q o : Nat) (s : PageState) :
    (chooseAnswer q o s).quizAnswers.length = s.quizAnswers.length := by
  unfold chooseAnswer
  split
  · rfl
  · simp

theorem foldl_chooses_length : ∀ (calls : List (Nat × Nat)) (s : PageState),
    ((calls.foldl (fun s c => chooseAnswer c.1 c.2 s) s).quizAnswers).length =
      s.quizAnswers.length := by
  intro calls
  induction calls with
  | nil => intro s; rfl
  | cons c cs ih =>
      intro s
      rw [List.foldl_cons, ih, chooseAnswer_length]

theorem runChooses_length (calls : List (Nat × Nat)) :
    (runChooses calls).quizAnswers.length = 3 := by
  unfold runChooses
  rw [foldl_chooses_length]
  rfl

theorem scoreFromOver_len3 (a b c : Int) :
    scoreFromOver quizQuestions 0 [a, b, c] =
      specCountCorrect quizQuestions [a, b, c] := by
  by_cases h1 : a = (1 : Int) <;> by_cases h2 : b = (2 : Int) <;>
    by_cases h3 : c = (1 : Int) <;>
    simp [scoreFromOver, specCountCorrect, quizQuestions, List.filter,
      Bool.beq_eq_decide_eq, h1, h2, h3]

theorem score_eq_spec (ans : List Int) (h : ans.length = 3) :
    scoreFromOver quizQuestions 0 ans = specCountCorrect quizQuestions ans := by
  obtain ⟨a, b, c, rfl⟩ := List.length_eq_three.mp h
  exact scoreFromOver_len3 a b c

/-- C1: for every sequence of option clicks the UI can emit, starting in
the initial Answering state, `score` equals the count of questions whose
latest recorded answer equals the correct index of that question; no
correct index in the bank equals the sentinel `-1`, so an unanswered question never
counts as correct; and the scoring reduction on the scenario bank
(correct indices [1, 0, 2]) with recorded answers [1, 1, 2] yields 2. -/
theorem score_counts_correct :
    (∀ calls : List (Nat × Nat),
        (calls.all fun c => validEvent (.choose c.1 c.2)) = true →
        score (runChooses calls) =
          specCountCorrect quizQuestions (runChooses calls).quizAnswers) ∧
      (quizQuestions.all fun q => q.answer != -1) = true ∧
      scoreFromOver scenarioQuestions 0 [1, 1, 2] = 2 := by
  refine ⟨?_, by decide, by decide⟩
  intro calls _
  exact score_eq_spec _ (runChooses_length calls)

/-- Witness for C1: the click sequence answering questions 0, 1, 2 with
options 1, 1, 2 is valid, and the score equation holds on it. -/
theorem score_counts_correct_witness :
    ([((0 : Nat), (1 : Nat)), (1, 1), (2, 2)].all fun c =>
        validEvent (.choose c.1 c.2)) = true ∧
      score (runChooses [(0, 1), (1, 1), (2, 2)]) =
        specCountCorrect quizQuestions
          (runChooses [(0, 1), (1, 1), (2, 2)]).quizAnswers :=
  ⟨by decide, score_counts_correct.1 [(0, 1), (1, 1), (2, 2)] (by decide)⟩

theorem forall2_set {α β : Type} {R : α → β → Prop} {l₁ : List α} {l₂ : List β}
    (h : List.Forall₂ R l₁ l₂) :
    ∀ (i : Nat) (b : β), (∀ a, l₁.get? i = some a → R a b) →
      List.Forall₂ R l₁ (l₂.set i b) := by
  induction h with
  | nil =>
      intro i b _
      exact .nil
  | @cons a x l₁ l₂ hr hrs ih =>
      intro i b hb
      cases i with
      | zero => exact .cons (hb a rfl) hrs
      | succ i => exact .cons hr (ih i b fun a ha => hb a ha)

theorem entryOK_replicate :
    ∀ qs : List QuizQuestion,
      List.Forall₂ entryOK qs (List.replicate qs.length (-1)) := by
  intro qs
  induction qs with
  | nil => exact .nil
  | cons q qs ih => exact .cons (Or.inl rfl) ih

theorem applyEvent_preserves (s : PageState) (e : Event)
    (hv : validEvent e = true) (h : answersOK s.quizAnswers) :
    answersOK (applyEvent s e).quizAnswers := by
  cases e with
  | select id => exact h
  | submit => exact h
  | reset => exact entryOK_replicate quizQuestions
  | choose q o =>
      by_cases hs : s.submitted
      · simpa [applyEvent, chooseAnswer, hs] using h
      · simp only [applyEvent, chooseAnswer, hs, if_false, Bool.false_eq_true]
        refine forall2_set h q (o : Int) ?_
        intro a ha
        simp only [validEvent] at hv
        rw [ha] at hv
        simp only [decide_eq_true_eq] at hv
        exact Or.inr ⟨Int.ofNat_nonneg o, by exact_mod_cast hv⟩

theorem run_preserves : ∀ (es : List Event) (s : PageState),
    (es.all validEvent) = true → answersOK s.quizAnswers →
      answersOK ((es.foldl applyEvent s).quizAnswers) := by
  intro es
  induction es with
  | nil => intro s _ h; exact h
  | cons e es ih =>
      intro s hv h
      rw [List.all_cons, Bool.and_eq_true] at hv
      exact ih (applyEvent s e) hv.2 (applyEvent_preserves s e hv.1 h)

/-- C7: every sequence of UI events (select, chooseAnswer, submit, reset)
from the initial state keeps the answer array one entry per question, each
entry either the sentinel `-1` or an option index within [0, optionCount)
of its question. -/
theorem events_preserve_invariant (es : List Event)
    (hv : (es.all validEvent) = true) :
    (run es).quizAnswers.length = quizQuestions.length ∧
      answersOK (run es).quizAnswers := by
  have h := run_preserves es initState hv (entryOK_replicate quizQuestions)
  exact ⟨h.length_eq.symm, h⟩

/-- Witness for C7: a concrete valid trace touching all four handlers keeps
the invariant. -/
theorem events_preserve_invariant_witness :
    ([Event.choose 0 1, Event.submit, Event.reset, Event.select "int",
        Event.choose 2 2].all validEvent) = true ∧
      ((run [Event.choose 0 1, Event.submit, Event.reset, Event.select "int",
          Event.choose 2 2]).quizAnswers.length = quizQuestions.length ∧
        answersOK (run [Event.choose 0 1, Event.submit, Event.reset,
          Event.select "int", Event.choose 2 2]).quizAnswers) :=
  ⟨by decide,
   events_preserve_invariant
     [Event.choose 0 1, Event.submit, Event.reset, Event.select "int",
       Event.choose 2 2] (by decide)⟩
